import Mathlib

/-!
A verification development for the retrieval pipeline of the asfc-demo
repository.  The Python sources under `backend/` and
`pdf-llm-trainer/backend/` are shallowly embedded as executable Lean
functions over `List Char` (Python `str`), `Int` (Python `int`) and `ℚ`
(wall-clock timestamps).  External effects are made explicit: HTTP traffic
is an oracle argument, the chunk store is a record of lookup functions,
and sleeps / outbound calls are recorded in an event trace.
-/

/-! ## Python string primitives -/

/-- Python whitespace characters recognised by `str.split`, `str.strip`
and the regex class `\s` (restricted to ASCII, which covers all inputs
appearing in this development). -/
def isPySpace (c : Char) : Bool :=
  c = ' ' || c = '\t' || c = '\n' || c = '\r' || c = '\x0b' || c = '\x0c'

/-- ASCII decimal digit, the regex class `\d` on ASCII input. -/
def isPyDigit (c : Char) : Bool :=
  '0' ≤ c && c ≤ '9'

/-- ASCII uppercase letter, the regex class `[A-Z]`. -/
def isUpperAZ (c : Char) : Bool :=
  'A' ≤ c && c ≤ 'Z'

/-- Python `str.lower` (ASCII). -/
def strLower (s : List Char) : List Char :=
  s.map Char.toLower

/-- Python `sub in s`: contiguous substring test. -/
def substr (sub s : List Char) : Bool :=
  decide (sub <:+: s)

/-- Python `str.split()` with no argument: split on whitespace runs,
dropping empty pieces. -/
def pySplit (s : List Char) : List (List Char) :=
  (s.splitOnP isPySpace).filter (· ≠ [])

/-- Python `str.strip()`: remove leading and trailing whitespace. -/
def pyStrip (s : List Char) : List Char :=
  ((s.dropWhile isPySpace).reverse.dropWhile isPySpace).reverse

/-- Numeric value of a digit string. -/
def digitsVal (ds : List Char) : Nat :=
  ds.foldl (fun acc c => acc * 10 + (c.toNat - '0'.toNat)) 0

/-- After a leading digit, Python `int` accepts further digits with
single underscores allowed only between digits (`1_2` is valid, `1__2`
and a trailing `_` are not). -/
def digitsGroupedTail : List Char → Bool
  | [] => true
  | '_' :: c :: rest => isPyDigit c && digitsGroupedTail rest
  | '_' :: [] => false
  | c :: rest => isPyDigit c && digitsGroupedTail rest

/-- The digit body of a Python decimal integer literal: a digit followed
by digits with optional single grouping underscores between them. -/
def isPyIntBody : List Char → Bool
  | [] => false
  | c :: rest => isPyDigit c && digitsGroupedTail rest

/-- Python `int(s)` on a decimal string: optional surrounding
whitespace, optional sign, then digits with optional single grouping
underscores between digits (`int("1_2") = 12`); `none` when `int` would
raise `ValueError`. -/
def pyParseInt (s : List Char) : Option Int :=
  let t := pyStrip s
  match t with
  | '+' :: ds => if isPyIntBody ds then some (digitsVal (ds.filter (· ≠ '_'))) else none
  | '-' :: ds => if isPyIntBody ds then some (-(digitsVal (ds.filter (· ≠ '_')) : Int)) else none
  | ds => if isPyIntBody ds then some (digitsVal (ds.filter (· ≠ '_'))) else none

example : pyParseInt "1_2".data = some 12 := by decide
example : pyParseInt " 12 ".data = some 12 := by decide
example : pyParseInt "-5".data = some (-5) := by decide
example : pyParseInt "1__2".data = none := by decide
example : pyParseInt "1_".data = none := by decide
example : pyParseInt "_1".data = none := by decide
example : pyParseInt "2.5".data = none := by decide

/-- Normalise a Python slice index against a string of length `n`:
negative indices count from the end, and the result is clamped into
`[0, n]`. -/
def normIdx (n : Nat) (i : Int) : Nat :=
  if i < 0 then ((n : Int) + i).toNat else min i.toNat n

/-- Python `s[a:b]`. -/
def pySlice (s : List Char) (a b : Int) : List Char :=
  let lo := normIdx s.length a
  let hi := normIdx s.length b
  (s.drop lo).take (hi - lo)

/-- Python `s.rfind(sub, a, b)`: greatest index `j` with
`a ≤ j`, `j + len(sub) ≤ b` (after slice-index normalisation) such that
`sub` occurs at `j`; `-1` when there is none. -/
def pyRfind (s sub : List Char) (a b : Int) : Int :=
  let lo := normIdx s.length a
  let hi := normIdx s.length b
  match (List.range (hi + 1)).reverse.find?
      (fun j => decide (lo ≤ j) && decide (j + sub.length ≤ hi) &&
        decide ((s.drop j).take sub.length = sub)) with
  | some j => (j : Int)
  | none => -1

/-! ## Text Segmenter: `pdf_processor.chunk_text`

Embedded from `pdf-llm-trainer/backend/pdf_processor.py`.  The `while`
loop is given an explicit fuel argument; `none` means the fuel ran out,
i.e. the loop performed that many iterations without terminating. -/

/-- The sentence-boundary markers tried, in order, by `chunk_text`. -/
def sentencePuncts : List (List Char) :=
  [". ".data, ".\n".data, "! ".data, "!\n".data, "? ".data, "?\n".data]

/-- The `for punct in [...]` loop of `chunk_text`: the first marker in
order that occurs in `text[start:end]` moves `end` to just past its last
occurrence; otherwise `end` is unchanged. -/
def ctFindEnd (text : List Char) (start e : Int) : Int :=
  match sentencePuncts.findSome? (fun punct =>
      let lastPunct := pyRfind text punct start e
      if lastPunct ≠ -1 then some (lastPunct + (punct.length : Int)) else none) with
  | some e2 => e2
  | none => e

/-- The `while start < len(text)` loop of `chunk_text`. -/
def ctLoop (text : List Char) (chunk_size overlap : Nat) :
    Nat → Int → List (List Char) → Option (List (List Char))
  | 0, _, _ => none
  | fuel + 1, start, chunks =>
    if start < (text.length : Int) then
      let e0 : Int := start + chunk_size
      let e : Int := if e0 < (text.length : Int) then ctFindEnd text start e0 else e0
      let chunk := pyStrip (pySlice text start e)
      let chunks1 := if chunk ≠ [] then chunks ++ [chunk] else chunks
      let start1 := e - overlap
      if start1 ≥ (text.length : Int) then some chunks1
      else ctLoop text chunk_size overlap fuel start1 chunks1
    else some chunks

/-- `chunk_text(text, chunk_size, overlap)` from
`pdf-llm-trainer/backend/pdf_processor.py` (fuel-indexed). -/
def chunk_text (text : List Char) (chunk_size overlap : Nat) (fuel : Nat) :
    Option (List (List Char)) :=
  if text = [] then some []
  else if text.length ≤ chunk_size then some [text]
  else ctLoop text chunk_size overlap fuel 0 []

/-! ## Pacing limiter: `backend/rate_limiter.py`

Time is idealised: `time.time()` at entry to `wait_if_needed` reads
`now`, `time.sleep(w)` advances the clock by exactly `w`, and the second
`time.time()` reads the advanced clock.  The lock serialises calls, so a
call is a pure state transition. -/

/-- The mutable state of a `RateLimiter` instance. -/
structure RateLimiter where
  min_delay : ℚ
  last_request_time : ℚ
deriving DecidableEq

/-- `RateLimiter.__init__(min_delay_seconds)`: `last_request_time`
starts at 0. -/
def RateLimiter.init (min_delay_seconds : ℚ) : RateLimiter :=
  { min_delay := min_delay_seconds, last_request_time := 0 }

/-- `RateLimiter.wait_if_needed`, entered at wall-clock time `now`.
Returns the slept duration together with the updated limiter state. -/
def RateLimiter.wait_if_needed (rl : RateLimiter) (now : ℚ) : ℚ × RateLimiter :=
  let time_since_last := now - rl.last_request_time
  if time_since_last < rl.min_delay then
    let wait_time := rl.min_delay - time_since_last
    (wait_time, { rl with last_request_time := now + wait_time })
  else
    (0, { rl with last_request_time := now })

/-! ## Target-document detection: `rag.detect_bulletin_query` -/

/-- Greedy `\d+` at the head of `rest`. -/
def matchDigits (rest : List Char) : Option (List Char) :=
  let ds := rest.takeWhile isPyDigit
  if ds ≠ [] then some ds else none

/-- Greedy `\d+\.\d+` at the head of `rest`. -/
def matchDecimal (rest : List Char) : Option (List Char) :=
  let ds := rest.takeWhile isPyDigit
  if ds = [] then none
  else
    match rest.drop ds.length with
    | '.' :: rest2 =>
      let ds2 := rest2.takeWhile isPyDigit
      if ds2 ≠ [] then some (ds ++ '.' :: ds2) else none
    | _ => none

/-- Attempt the regex `bulletin[\s\-]?(<num>)` at the start of `s`,
where `<num>` is matched by `num` (with regex backtracking over the
optional separator).  Returns the capture group. -/
def bulletinAt (num : List Char → Option (List Char)) (s : List Char) :
    Option (List Char) :=
  if s.take 8 = "bulletin".data then
    let rest := s.drop 8
    match rest with
    | c :: rest2 =>
      if isPySpace c || c = '-' then
        match num rest2 with
        | some ds => some ds
        | none => num rest
      else num rest
    | [] => none
  else none

/-- `re.search` for `bulletin[\s\-]?(<num>)`: leftmost match wins. -/
def searchBulletin (num : List Char → Option (List Char)) :
    List Char → Option (List Char)
  | [] => none
  | c :: rest =>
    match bulletinAt num (c :: rest) with
    | some ds => some ds
    | none => searchBulletin num rest

/-- `re.findall(r'\d+', s)` restricted to its first element: the first
maximal digit run in `s`. -/
def firstNumber : List Char → Option (List Char)
  | [] => none
  | c :: rest =>
    if isPyDigit c then some (c :: rest.takeWhile isPyDigit)
    else firstNumber rest

/-- `detect_bulletin_query(query)` from `pdf-llm-trainer/backend/rag.py`:
the two regex patterns are tried in order on the lowercased query; then,
if the word `bulletin` occurs at all, the first digit run anywhere in the
original query is used. -/
def detect_bulletin_query (query : List Char) : Option (List Char) :=
  let query_lower := strLower query
  match searchBulletin matchDigits query_lower with
  | some n => some ("Bulletin-".data ++ n)
  | none =>
    match searchBulletin matchDecimal query_lower with
    | some n => some ("Bulletin-".data ++ n)
    | none =>
      if substr "bulletin".data query_lower then
        match firstNumber query with
        | some n => some ("Bulletin-".data ++ n)
        | none => none
      else none

example : detect_bulletin_query "tell me about bulletin 113".data =
    some "Bulletin-113".data := by decide
example : detect_bulletin_query "Bulletin-7.2".data = some "Bulletin-7".data := by
  decide
example : detect_bulletin_query "no number bulletin".data = none := by decide
example : detect_bulletin_query "hello".data = none := by decide

/-! ## Relevance Retriever: `rag.load_relevant_chunks`

Chunks are JSON dicts; the three keys read by the pipeline are modelled
as optional fields (a missing key is `none`), and the `dict.get`
defaults from the source are applied where the source applies them. -/

/-- A chunk record as stored in the database or a `.jsonl` file. -/
structure Chunk where
  text : Option (List Char)
  source : Option (List Char)
  page : Option Int
deriving DecidableEq

/-- `chunk.get('text', '')`. -/
def Chunk.textD (c : Chunk) : List Char := c.text.getD []

/-- `chunk.get('source', 'unknown')`. -/
def Chunk.sourceD (c : Chunk) : List Char := c.source.getD "unknown".data

/-- `chunk.get('page', 0)`. -/
def Chunk.pageD (c : Chunk) : Int := c.page.getD 0

/-- Insert `a` into `l` after every element `b` with `le b a`:
the insertion step of a stable sort. -/
def insertStable {α : Type} (le : α → α → Bool) (a : α) : List α → List α
  | [] => [a]
  | b :: t => if le b a then b :: insertStable le a t else a :: b :: t

/-- Python `list.sort(key=...)`: a stable sort with respect to the
boolean comparison `le` (ties keep their original relative order, which
is all the source relies on). -/
def pySort {α : Type} (le : α → α → Bool) (l : List α) : List α :=
  l.foldl (fun acc x => insertStable le x acc) []

/-- External chunk storage as seen by `load_relevant_chunks`:
the database repository (when `dbAvailable`, otherwise every repository
call raises and the file-system fallback runs), the per-bulletin chunk
file lookup (`none` when the file does not exist), and the concatenated
contents of all `*.jsonl` chunk files in directory order. -/
structure ChunkStore where
  dbAvailable : Bool
  getBySource : List Char → List Chunk
  searchByText : List Char → Nat → List Chunk
  chunkFile : List Char → Option (List Chunk)
  allFileChunks : List Chunk

/-- The per-row dict built from a database chunk
(`{'text': ..., 'source': ..., 'page': ...}` with `.get` defaults). -/
def dbConvert (c : Chunk) : Chunk :=
  { text := some c.textD, source := some c.sourceD, page := some c.pageD }

/-- `sum(1 for term in query_terms if term in text_lower)` — the
relevance score of one chunk, from `rag.py` line 151. -/
def chunkScore (query_terms : List (List Char)) (text_lower : List Char) : Nat :=
  query_terms.countP (fun term => substr term text_lower)

/-- The candidate pool `all_chunks` assembled by `load_relevant_chunks`:
database path (with the bulletin branch sorting by page) or file-system
fallback. -/
def retrievalCandidates (st : ChunkStore) (query : List Char) (top_k : Nat)
    (bulletin_source : Option (List Char)) : List Chunk :=
  if st.dbAvailable then
    let db_chunks :=
      match bulletin_source with
      | some b => pySort (fun (x y : Chunk) => decide (x.pageD ≤ y.pageD)) (st.getBySource b)
      | none => st.searchByText query (top_k * 2)
    db_chunks.map dbConvert
  else
    match bulletin_source with
    | some b =>
      match st.chunkFile (strLower b ++ ".jsonl".data) with
      | some cs => cs
      | none => []
    | none => st.allFileChunks

/-- The `scored_chunks` list of `load_relevant_chunks`: each candidate
paired with its score, keeping only positive scores. -/
def scoredCandidates (query_terms : List (List Char)) (all_chunks : List Chunk) :
    List (Nat × Chunk) :=
  all_chunks.filterMap (fun chunk =>
    let score := chunkScore query_terms (strLower chunk.textD)
    if score > 0 then some (score, chunk) else none)

/-- `load_relevant_chunks(query, top_k)` from
`pdf-llm-trainer/backend/rag.py`. -/
def load_relevant_chunks (st : ChunkStore) (query : List Char) (top_k : Nat) :
    List Chunk :=
  let query_lower := strLower query
  let query_terms := pySplit query_lower
  let bulletin_source := detect_bulletin_query query
  let all_chunks := retrievalCandidates st query top_k bulletin_source
  if all_chunks = [] then []
  else
    match bulletin_source with
    | some _ => all_chunks
    | none =>
      let scored_chunks := scoredCandidates query_terms all_chunks
      let sorted := pySort (fun x y => decide (y.1 ≤ x.1)) scored_chunks
      let result := (sorted.take top_k).map (·.2)
      if scored_chunks ≠ [] then result else all_chunks.take top_k

/-! ## LLM Gateway: `rag.query_openrouter`

The JSON body of an HTTP response is a Python value; the dict/list
operations used by the 200-branch (`in`, `len`, subscription) are
embedded with their Python error behaviour, since only
`requests.exceptions.RequestException` is caught by the source. -/

/-- A JSON-decoded Python value. -/
inductive PyVal where
  | str (s : List Char)
  | num (n : Int)
  | boolean (b : Bool)
  | null
  | arr (xs : List PyVal)
  | obj (fields : List (List Char × PyVal))

/-- An uncaught Python exception escaping `query_openrouter`
(`valueError` is raised by `time.sleep` on a negative duration). -/
inductive PyErr where
  | keyError (k : List Char)
  | indexError
  | typeError
  | valueError
deriving DecidableEq

/-- Python `==` between a `str` and an arbitrary value. -/
def isStrEqual (k : List Char) : PyVal → Bool
  | .str s => s = k
  | _ => false

/-- Python `k in v` for a string `k`. -/
def pyContains (k : List Char) : PyVal → Except PyErr Bool
  | .obj fields => .ok (fields.any (fun kv => kv.1 = k))
  | .arr xs => .ok (xs.any (isStrEqual k))
  | .str s => .ok (substr k s)
  | _ => .error .typeError

/-- Python `v[k]` for a string key. -/
def pyGetKey (v : PyVal) (k : List Char) : Except PyErr PyVal :=
  match v with
  | .obj fields =>
    match fields.find? (fun kv => kv.1 = k) with
    | some kv => .ok kv.2
    | none => .error (.keyError k)
  | _ => .error .typeError

/-- Python `v[i]` for a non-negative integer index. -/
def pyGetIdx (v : PyVal) (i : Nat) : Except PyErr PyVal :=
  match v with
  | .arr xs =>
    match xs.get? i with
    | some x => .ok x
    | none => .error .indexError
  | .str s =>
    match s.get? i with
    | some c => .ok (.str [c])
    | none => .error .indexError
  | _ => .error .typeError

/-- Python `len(v)`. -/
def pyLen : PyVal → Except PyErr Int
  | .arr xs => .ok xs.length
  | .str s => .ok s.length
  | .obj fields => .ok fields.length
  | _ => .error .typeError

/-- Python truthiness `bool(v)`. -/
def pyTruthy : PyVal → Bool
  | .str s => !s.isEmpty
  | .num n => decide (n ≠ 0)
  | .boolean b => b
  | .null => false
  | .arr xs => !xs.isEmpty
  | .obj fields => !fields.isEmpty

/-- The HTTP-200 branch of `query_openrouter`:
`if 'choices' in data and len(data['choices']) > 0: return
data['choices'][0]['message']['content']`, else log and `return None`.
Any lookup failure is an uncaught Python exception. -/
def parse200 (data : PyVal) : Except PyErr (Option PyVal) := do
  let hasChoices ← pyContains "choices".data data
  if hasChoices then
    let choices ← pyGetKey data "choices".data
    let n ← pyLen choices
    if n > 0 then
      let choices2 ← pyGetKey data "choices".data
      let c0 ← pyGetIdx choices2 0
      let msg ← pyGetKey c0 "message".data
      let content ← pyGetKey msg "content".data
      pure (some content)
    else
      pure none
  else
    pure none

/-- One HTTP response from the OpenRouter endpoint: status code, JSON
body, and the optional `retry-after` header. -/
structure HttpResponse where
  status : Nat
  body : PyVal
  retryAfter : Option (List Char)

/-- The outcome of one `requests.post` call: a response, or a raised
`requests.exceptions.RequestException`. -/
inductive Attempt where
  | resp (r : HttpResponse)
  | raised

/-- One chat message `{role, content}`. -/
structure Message where
  role : List Char
  content : List Char

/-- The JSON payload posted to `/chat/completions`. -/
structure Payload where
  model : List Char
  messages : List Message
  temperature : ℚ
  maxTokens : Nat

/-- Observable events of a gateway run: an outbound HTTP request
starting, a `time.sleep`, or a blocking pass through the shared pacing
limiter (`wait_for_rate_limit`). -/
inductive Ev where
  | httpCall
  | sleep (n : Int)
  | limiterWait
deriving DecidableEq

/-- Default `OPENROUTER_MODEL` from `backend/config.py`. -/
def OPENROUTER_MODEL : List Char := "qwen/qwen-2.5-72b-instruct:free".data

/-- Default `OPENROUTER_BASE_URL` from `backend/config.py`. -/
def OPENROUTER_BASE_URL : List Char := "https://openrouter.ai/api/v1".data

/-- The 429 wait: the `retry-after` header parsed with `int` when it is
truthy and parseable, otherwise the flat 2-second fallback. -/
def retryWaitTime (retryAfter : Option (List Char)) : Int :=
  match retryAfter with
  | some h =>
    if h ≠ [] then
      match pyParseInt h with
      | some n => n
      | none => 2
    else 2
  | none => 2

/-- The `for attempt in range(max_retries)` loop of `query_openrouter`,
run over the list of remaining attempt indices against a network oracle.
Returns the event trace and the result (`none` models Python `None`).
Every `time.sleep(w)` raises an uncaught `ValueError` when `w` is
negative (reachable in the 429 branch through a negative `retry-after`
header), aborting the run; a completed sleep is recorded in the trace. -/
def qoLoop (oracle : Payload → Nat → Attempt) (payload : Payload)
    (max_retries : Nat) : List Nat → List Ev × Except PyErr (Option PyVal)
  | [] => ([], .ok none)
  | attempt :: rest =>
    match oracle payload attempt with
    | .raised =>
      if attempt < max_retries - 1 then
        if (2 : Int) ^ attempt < 0 then ([Ev.httpCall], .error .valueError)
        else
          let r := qoLoop oracle payload max_retries rest
          (Ev.httpCall :: Ev.sleep (2 ^ attempt) :: r.1, r.2)
      else
        let r := qoLoop oracle payload max_retries rest
        (Ev.httpCall :: r.1, r.2)
    | .resp resp =>
      if resp.status = 200 then
        ([Ev.httpCall], parse200 resp.body)
      else if resp.status = 429 then
        let wait_time := retryWaitTime resp.retryAfter
        if attempt < max_retries - 1 then
          if wait_time < 0 then ([Ev.httpCall], .error .valueError)
          else
            let r := qoLoop oracle payload max_retries rest
            (Ev.httpCall :: Ev.sleep wait_time :: r.1, r.2)
        else
          ([Ev.httpCall], .ok none)
      else if resp.status = 404 then
        ([Ev.httpCall], .ok none)
      else if resp.status = 401 then
        ([Ev.httpCall], .ok none)
      else
        if attempt < max_retries - 1 then
          if (2 : Int) ^ attempt < 0 then ([Ev.httpCall], .error .valueError)
          else
            let r := qoLoop oracle payload max_retries rest
            (Ev.httpCall :: Ev.sleep (2 ^ attempt) :: r.1, r.2)
        else
          let r := qoLoop oracle payload max_retries rest
          (Ev.httpCall :: r.1, r.2)

/-- `query_openrouter(messages, max_retries)` from
`pdf-llm-trainer/backend/rag.py`.  The network is an oracle mapping the
posted payload and the attempt number to that attempt's outcome. -/
def query_openrouter (apiKey : List Char) (oracle : Payload → Nat → Attempt)
    (messages : List Message) (max_retries : Nat) :
    List Ev × Except PyErr (Option PyVal) :=
  let _url := OPENROUTER_BASE_URL ++ "/chat/completions".data
  let _authHeader := "Bearer ".data ++ apiKey
  let payload : Payload :=
    { model := OPENROUTER_MODEL, messages := messages,
      temperature := 7 / 10, maxTokens := 4000 }
  qoLoop oracle payload max_retries (List.range max_retries)

/-! ## Answer Composer: `rag.ask_with_rag` and `rag.clean_response` -/

/-- The system prompt of `ask_with_rag`. -/
def systemPrompt : List Char :=
  "You are ASFC, an expert aviation and technical documentation assistant. Your role is to provide comprehensive, in-depth analysis based on the provided documentation context.\n\nANALYSIS REQUIREMENTS - Provide DEEP, THOROUGH answers:\n- Analyze the question from multiple angles and perspectives\n- Extract ALL relevant information from the context, not just surface-level facts\n- Connect related concepts, procedures, and regulations together\n- Explain the \"why\" behind procedures, not just the \"what\"\n- Identify relationships between different pieces of information\n- Consider implications, requirements, and dependencies\n- Break down complex topics into clear, detailed explanations\n- Provide comprehensive coverage of the topic, including edge cases when relevant\n\nRESPONSE STRUCTURE:\n- Start with a brief summary or direct answer\n- Then provide detailed analysis with multiple supporting points\n- Include specific examples, procedures, or regulations from the context\n- Explain technical terms and concepts clearly\n- Discuss related considerations or important caveats\n- End with a concise summary if the answer is lengthy\n\nCITATION AND ACCURACY:\n- Base your answers STRICTLY on the provided context\n- Cite specific sources (e.g., \"According to Bulletin-79, page 12...\")\n- Quote exact text when referencing critical procedures or regulations\n- If information is incomplete in the context, acknowledge what\x27s missing\n- Use technical terminology accurately from the context\n- Distinguish between requirements, recommendations, and best practices\n\nFORMATTING:\n- Use clear paragraphs (2-4 sentences each)\n- Use bullet points or numbered lists for procedures, requirements, or multiple points\n- Use headings or bold text for key sections when helpful\n- Write in a professional, authoritative style\n- Ensure logical flow from general to specific information".data

/-- Bulletin-analysis user message, part before `context_text`. -/
def bulletinUserPre : List Char :=
  "Complete Bulletin Documentation:\n\n".data

/-- Bulletin-analysis user message, between `context_text` and `question`. -/
def bulletinUserMid : List Char :=
  "\n\n---\n\nQuestion: ".data

/-- Bulletin-analysis user message, part after `question`. -/
def bulletinUserPost : List Char :=
  "\n\nBULLETIN ANALYSIS INSTRUCTIONS:\nYou are analyzing an ENTIRE bulletin document. Provide a COMPREHENSIVE, DETAILED analysis covering all aspects of this bulletin.\n\n1. OVERVIEW & PURPOSE:\n   - Provide a clear summary of what this bulletin is about\n   - Explain its purpose, scope, and objectives\n   - Identify the main topics and subject areas covered\n\n2. COMPREHENSIVE CONTENT ANALYSIS:\n   - Go through ALL sections and topics in the bulletin systematically\n   - Extract and explain key information, procedures, regulations, and guidelines\n   - Cover all major points, not just surface-level facts\n   - Include technical details, specifications, and requirements\n\n3. STRUCTURE & ORGANIZATION:\n   - Describe how the bulletin is organized (sections, chapters, etc.)\n   - Explain the flow and logical structure\n   - Identify key sections and their purposes\n\n4. DETAILED PROCEDURES & REQUIREMENTS:\n   - Extract all procedures, step-by-step instructions, and workflows\n   - List all requirements, regulations, and compliance items\n   - Include specific numbers, measurements, thresholds, and technical specifications\n   - Mention any forms, checklists, or documentation requirements\n\n5. IMPORTANT CONSIDERATIONS:\n   - Highlight critical safety information, warnings, or cautions\n   - Note any exceptions, special cases, or edge cases\n   - Identify dependencies on other documents or procedures\n   - Mention any updates, revisions, or superseded information\n\n6. PRACTICAL APPLICATIONS:\n   - Explain how this bulletin applies in real-world scenarios\n   - Provide context for when and why this information is needed\n   - Connect related concepts and procedures\n\n7. CITE SPECIFICALLY:\n   - Reference specific page numbers when citing information\n   - Quote exact text for critical procedures or regulations\n   - Organize information by page/section for easy reference\n\nSTRUCTURE YOUR RESPONSE:\n- Start with a comprehensive overview of the bulletin\n- Then provide detailed analysis organized by major topics/sections\n- Use clear headings, bullet points, and formatting\n- Include page references throughout\n- End with a summary of key points and takeaways\n\nProvide the MOST COMPREHENSIVE analysis possible - analyze EVERYTHING in this bulletin, not just a summary.".data

/-- Regular-query user message, part before `context_text`. -/
def regularUserPre : List Char :=
  "Context from documentation:\n\n".data

/-- Regular-query user message, between `context_text` and `question`. -/
def regularUserMid : List Char :=
  "\n\n---\n\nQuestion: ".data

/-- Regular-query user message, part after `question`. -/
def regularUserPost : List Char :=
  "\n\nANALYSIS INSTRUCTIONS:\nPlease provide a COMPREHENSIVE, IN-DEPTH answer based on the context provided above. \n\n1. ANALYZE DEEPLY:\n   - Extract all relevant information from the context\n   - Consider multiple aspects and perspectives of the question\n   - Connect related concepts, procedures, and regulations\n   - Explain underlying principles and reasoning, not just facts\n\n2. BE THOROUGH:\n   - Provide detailed explanations with supporting details\n   - Include step-by-step procedures when applicable\n   - Mention important considerations, requirements, and dependencies\n   - Discuss related topics that are relevant to fully understanding the answer\n\n3. CITE SOURCES:\n   - Reference specific documents and page numbers when citing information\n   - Quote exact text for critical procedures or regulations\n   - Distinguish between different sources when multiple documents are referenced\n\n4. STRUCTURE WELL:\n   - Start with a direct answer or summary\n   - Then provide comprehensive analysis with multiple supporting points\n   - Use clear paragraphs, bullet points, and formatting for readability\n   - End with key takeaways if the answer is lengthy\n\nIf the context doesn\x27t contain enough information to fully answer the question, acknowledge what information is available and what is missing. Provide the most comprehensive answer possible based on what is available.".data

/-- No-context user message, part after `question` (the part before is `Question: `). -/
def noContextUserPost : List Char :=
  "\n\nNote: No relevant context found in the documentation. Please answer based on your general knowledge.".data

/-- The fixed configuration-error string returned when
`OPENROUTER_API_KEY` is unset. -/
def configErrorMsg : List Char :=
  "Error: OPENROUTER_API_KEY not set in .env".data

/-- The fixed degraded message returned when the gateway reports
failure. -/
def rateLimitMsg : List Char :=
  "I\x27m currently unable to process your question due to rate limiting. Please wait 30 seconds and try again. The system is automatically managing request timing to avoid errors.".data

/-- Default `TOP_K` from `backend/config.py`. -/
def TOP_K : Nat := 3

/-- `re.sub(r'\n\x7b3,\x7d', '\n\n', text)`: collapse runs of three or
more newlines to exactly two. -/
def collapseNewlines : List Char → List Char
  | [] => []
  | c :: rest =>
    if c = '\n' then
      let run := c :: rest.takeWhile (· = '\n')
      let rest1 := rest.dropWhile (· = '\n')
      (if run.length ≥ 3 then "\n\n".data else run) ++ collapseNewlines rest1
    else c :: collapseNewlines rest
termination_by l => l.length
decreasing_by
  · exact Nat.lt_succ_of_le ((List.dropWhile_sublist _).length_le)
  · exact Nat.lt_succ_of_le (Nat.le_refl _)

/-- The punctuation class `[,.!?;:]`. -/
def isPunct6 (c : Char) : Bool :=
  c = ',' || c = '.' || c = '!' || c = '?' || c = ';' || c = ':'

/-- `re.sub(r'\s+([,.!?;:])', r'\1', s)`: drop whitespace immediately
preceding punctuation.  A whitespace character is dropped exactly when
the next non-whitespace character is punctuation, which coincides with
the leftmost non-overlapping replacement order of `re.sub`. -/
def stripBeforePunct : List Char → List Char
  | [] => []
  | c :: rest =>
    if isPySpace c then
      match rest.dropWhile isPySpace with
      | p :: _ => if isPunct6 p then stripBeforePunct rest else c :: stripBeforePunct rest
      | [] => c :: stripBeforePunct rest
    else c :: stripBeforePunct rest

/-- `re.sub(r'([,.!?;:])\s*([A-Z])', r'\1 \2', s)`: normalise the gap
between punctuation and a following capital to one space. -/
def spaceAfterPunct : List Char → List Char
  | [] => []
  | c :: rest =>
    if isPunct6 c then
      match h : rest.dropWhile isPySpace with
      | u :: tl =>
        if isUpperAZ u then c :: ' ' :: u :: spaceAfterPunct tl
        else c :: spaceAfterPunct rest
      | [] => c :: spaceAfterPunct rest
    else c :: spaceAfterPunct rest
termination_by l => l.length
decreasing_by
  · have h1 : (rest.dropWhile isPySpace).length ≤ rest.length :=
      (List.dropWhile_sublist _).length_le
    rw [h] at h1
    simp only [List.length_cons] at h1 ⊢
    omega
  all_goals simp only [List.length_cons]; omega

/-- `re.sub(r'\.([A-Z])', r'. \1', s)`: ensure a space after a period
followed by a capital letter. -/
def spaceAfterPeriod : List Char → List Char
  | [] => []
  | '.' :: u :: tl =>
    if isUpperAZ u then '.' :: ' ' :: u :: spaceAfterPeriod tl
    else '.' :: spaceAfterPeriod (u :: tl)
  | c :: rest => c :: spaceAfterPeriod rest

/-- `clean_response(text)` from `pdf-llm-trainer/backend/rag.py`. -/
def clean_response (text : List Char) : List Char :=
  if text = [] then text
  else
    let t := collapseNewlines text
    let lines := (t.splitOn '\n').map pyStrip
    let lines := lines.dropWhile (· = [])
    let lines := (lines.reverse.dropWhile (· = [])).reverse
    let cleaned := List.intercalate "\n".data lines
    let cleaned := stripBeforePunct cleaned
    let cleaned := spaceAfterPunct cleaned
    let cleaned := spaceAfterPeriod cleaned
    pyStrip cleaned

/-- The context block `[From <source>, Page <page>]\n<text[:1500]>` built
for one retrieved chunk (`chunk.get('page', '?')` renders a missing page
as `?`). -/
def chunkBlock (chunk : Chunk) : List Char :=
  let pageText := match chunk.page with
    | some p => (toString p).data
    | none => "?".data
  "[From ".data ++ chunk.sourceD ++ ", Page ".data ++ pageText ++ "]\n".data ++
    chunk.textD.take 1500

/-- The system and user messages assembled by `ask_with_rag`: retrieval
via `load_relevant_chunks`, context blocks joined by the visible
delimiter, and a bulletin-analysis, regular or no-context user prompt. -/
def buildMessages (st : ChunkStore) (question : List Char) : List Message :=
  let relevant_chunks := load_relevant_chunks st question TOP_K
  let messages : List Message := [{ role := "system".data, content := systemPrompt }]
  let user_message :=
    if relevant_chunks ≠ [] then
      let context_text :=
        List.intercalate "\n\n---\n\n".data (relevant_chunks.map chunkBlock)
      let is_bulletin_query := (detect_bulletin_query question).isSome
      if is_bulletin_query then
        bulletinUserPre ++ context_text ++ bulletinUserMid ++ question ++
          bulletinUserPost
      else
        regularUserPre ++ context_text ++ regularUserMid ++ question ++
          regularUserPost
    else
      "Question: ".data ++ question ++ noContextUserPost
  messages ++ [{ role := "user".data, content := user_message }]

/-- The tail of `ask_with_rag` after the gateway call: `if response:`
post-processes through `clean_response`, otherwise the fixed degraded
message is returned; an uncaught exception propagates. -/
def composeResult (run : List Ev × Except PyErr (Option PyVal)) :
    List Ev × Except PyErr (List Char) :=
  match run.2 with
  | .error e => (run.1, .error e)
  | .ok (some v) =>
    if pyTruthy v then
      match v with
      | .str s => (run.1, .ok (clean_response s))
      | _ => (run.1, .error .typeError)
    else (run.1, .ok rateLimitMsg)
  | .ok none => (run.1, .ok rateLimitMsg)

/-- `ask_with_rag(question)` from `pdf-llm-trainer/backend/rag.py`,
parameterised by the configured credential, the chunk storage and the
network oracle.  The result is the event trace of the gateway run
together with either the returned string or an uncaught Python
exception. -/
def ask_with_rag (apiKey : List Char) (st : ChunkStore)
    (oracle : Payload → Nat → Attempt) (question : List Char) :
    List Ev × Except PyErr (List Char) :=
  if apiKey = [] then ([], .ok configErrorMsg)
  else composeResult (query_openrouter apiKey oracle (buildMessages st question) 3)

/-! ## Specification-side definitions

These follow the wording of the specification and are compared with the
source-derived definitions above. -/

/-- The score as the specification words it (§3, ScoredChunk): the count
of DISTINCT query terms found as a substring of the chunk text. -/
def specDistinctScore (query_terms : List (List Char)) (text_lower : List Char) : Nat :=
  query_terms.dedup.countP (fun term => substr term text_lower)

/-- The round-trip reassembly named by the specification (§8): the first
chunk whole, then every subsequent chunk with its leading
`overlap`-character duplicated region removed, concatenated. -/
def reconstructOverlap (overlap : Nat) : List (List Char) → List Char
  | [] => []
  | c :: cs => c ++ (cs.map (List.drop overlap)).flatten

/-- A well-formed HTTP-200 body in the sense of §4.3: the extraction
`data['choices'][0]['message']['content']` either is skipped (no/empty
`choices`) or yields a string without raising. -/
def wellFormed200 (body : PyVal) : Prop :=
  parse200 body = .ok none ∨ ∃ s, parse200 body = .ok (some (.str s))

/-- A network outcome through which the gateway cannot raise: its
200-responses carry well-formed bodies, and its 429-responses carry no
negative computed wait (a `retry-after` header parsing to a negative
integer would make `time.sleep` raise `ValueError`).  Transport
exceptions and other statuses are unrestricted. -/
def wellFormedAttempt : Attempt → Prop
  | .raised => True
  | .resp r => (r.status = 200 → wellFormed200 r.body) ∧
      (r.status = 429 → 0 ≤ retryWaitTime r.retryAfter)

/-- A file-system-backed store holding one chunk whose `text` is the
empty string. -/
def fsStoreEmptyText : ChunkStore :=
  { dbAvailable := false, getBySource := fun _ => [],
    searchByText := fun _ _ => [], chunkFile := fun _ => none,
    allFileChunks := [{ text := some [], source := some "s".data, page := some 1 }] }

/-- A file-system-backed store holding one chunk with text `cat`. -/
def fsStoreCat : ChunkStore :=
  { dbAvailable := false, getBySource := fun _ => [],
    searchByText := fun _ _ => [], chunkFile := fun _ => none,
    allFileChunks := [{ text := some "cat".data, source := some "s".data, page := some 1 }] }

/-! ## Helper lemmas -/

lemma mem_pySplit_ne_nil {t : List Char} {s : List Char} (h : t ∈ pySplit s) :
    t ≠ [] := by
  unfold pySplit at h
  exact of_decide_eq_true (List.mem_filter.mp h).2

lemma substr_ne_nil {t l : List Char} (h : substr t l = true) (ht : t ≠ []) :
    l ≠ [] := by
  intro hl
  subst hl
  obtain ⟨u, v, huv⟩ := of_decide_eq_true h
  have := List.append_eq_nil.mp huv
  have := List.append_eq_nil.mp this.1
  exact ht this.2

lemma strLower_ne_nil {l : List Char} (h : strLower l ≠ []) : l ≠ [] := by
  intro hl
  subst hl
  exact h rfl

/-! ## Claim C3 -/

/-- C3: the target-document detector maps `"tell me about bulletin 113"`
to `Bulletin-113` and a keyword-with-no-digit question to no target, as
claimed; but on the question `"Bulletin-7.2"` it returns `Bulletin-7`,
not `Bulletin-7.2` — the integer pattern is tried first and matches the
`7`, so the decimal pattern in the source is unreachable and decimal
identifiers are truncated. -/
theorem C3_decimal_bulletin_eval :
    detect_bulletin_query "tell me about bulletin 113".data =
      some "Bulletin-113".data ∧
    detect_bulletin_query "Bulletin-7.2".data = some "Bulletin-7".data ∧
    detect_bulletin_query "bulletin one".data = none := by
  refine ⟨by decide, by decide, by decide⟩

/-! ## Claim C4 -/

/-- C4: on the database path, full-document retrieval sorts chunks
ascending by page (pages stored as [3,1,2] come back [1,2,3]); but on
the file-system fallback path the chunks of the bulletin file are
returned in file order with no sort, so pages stored as [3,1,2] come
back [3,1,2] — contradicting the claim (and the source's own comment
`already sorted by page`) on the fallback path. -/
theorem C4_fallback_unsorted_eval :
    (load_relevant_chunks
      { dbAvailable := true,
        getBySource := fun _ =>
          [{ text := some "c".data, source := some "s".data, page := some 3 },
           { text := some "a".data, source := some "s".data, page := some 1 },
           { text := some "b".data, source := some "s".data, page := some 2 }],
        searchByText := fun _ _ => [], chunkFile := fun _ => none,
        allFileChunks := [] }
      "bulletin 1".data 3).map Chunk.pageD = [1, 2, 3] ∧
    (load_relevant_chunks
      { dbAvailable := false, getBySource := fun _ => [],
        searchByText := fun _ _ => [],
        chunkFile := fun n =>
          if n = "bulletin-1.jsonl".data then
            some [{ text := some "c".data, source := some "s".data, page := some 3 },
                  { text := some "a".data, source := some "s".data, page := some 1 },
                  { text := some "b".data, source := some "s".data, page := some 2 }]
          else none,
        allFileChunks := [] }
      "bulletin 1".data 3).map Chunk.pageD = [3, 1, 2] := by
  refine ⟨by decide, by decide⟩

/-! ## Claim C5 -/

lemma ctLoop_abc_stuck :
    ∀ (n : Nat) (acc : List (List Char)),
      ctLoop "abc. xxxxxxxxxxxxxxx".data 10 5 n 0 acc = none := by
  intro n
  induction n with
  | zero => intro acc; rfl
  | succ k ih =>
    intro acc
    exact ih (acc ++ ["abc.".data])

/-- C5: `chunk_text` does NOT terminate on every input with
`chunk_size > overlap ≥ 0`.  On `"abc. xxxxxxxxxxxxxxx"` with
`chunk_size = 10`, `overlap = 5`, the sentence boundary found at index 3
puts the window end at 5, so the next start is `5 − 5 = 0`: the window
start resets to 0 on every iteration and the `while` loop never exits
(the fuel-indexed loop returns `none` for every fuel).  The same cycle
occurs at the default parameters 1000/200 for a text whose only sentence
boundary sits 198 characters in. -/
theorem C5_chunk_text_nonterminating :
    ∀ fuel : Nat, chunk_text "abc. xxxxxxxxxxxxxxx".data 10 5 fuel = none := by
  intro fuel
  exact ctLoop_abc_stuck fuel []

/-! ## Claim C6 -/

/-- C6 counterexample: for the question `"cat cat"` against a chunk with
text `"cat"`, the source's score (`sum(1 for term in query_terms if term
in text_lower)` over the raw split list) is 2, while the number of
DISTINCT matching terms is 1 — a term appearing twice in the question
contributes 2, not at most 1. -/
theorem C6_duplicate_term_counterexample :
    chunkScore (pySplit (strLower "cat cat".data)) (strLower "cat".data) ≠
      specDistinctScore (pySplit (strLower "cat cat".data)) (strLower "cat".data) := by
  decide

/-- C6 (amended): the relevance score counts matching query terms with
multiplicity in the whitespace-split term list; it equals the
distinct-term count exactly when the term list has no duplicates. -/
theorem C6_score_multiplicity (query_terms : List (List Char))
    (text_lower : List Char) (h : query_terms.Nodup) :
    chunkScore query_terms text_lower = specDistinctScore query_terms text_lower := by
  unfold chunkScore specDistinctScore
  rw [List.dedup_eq_self.mpr h]

/-- Witness for `C6_score_multiplicity` at a concrete duplicate-free
term list. -/
theorem C6_score_multiplicity_witness :
    (["cat".data, "dog".data] : List (List Char)).Nodup ∧
    chunkScore ["cat".data, "dog".data] "cat and dog".data =
      specDistinctScore ["cat".data, "dog".data] "cat and dog".data :=
  ⟨by decide, C6_score_multiplicity ["cat".data, "dog".data] "cat and dog".data
    (by decide)⟩

/-! ## Claim C10 -/

/-- C10: a serialized `wait_if_needed` call on a limiter with
`min_delay = d` and previously recorded time `last` sleeps exactly
`max 0 (d − (now − last))` — precisely as long as needed — and the
timestamp it records is at least `d` after the previously recorded one,
for every entry time `now`. -/
theorem C10_limiter_spacing (d last now : ℚ) :
    (RateLimiter.wait_if_needed { min_delay := d, last_request_time := last } now).1
        = max 0 (d - (now - last)) ∧
    last + d ≤
      (RateLimiter.wait_if_needed { min_delay := d, last_request_time := last }
        now).2.last_request_time := by
  unfold RateLimiter.wait_if_needed
  dsimp only
  split_ifs with h
  · constructor
    · dsimp only
      rw [max_eq_right]
      linarith
    · dsimp only
      linarith
  · constructor
    · dsimp only
      rw [max_eq_left]
      linarith
    · dsimp only
      linarith

/-! ## Claim C2 -/

lemma qoLoop_no_limiter (oracle : Payload → Nat → Attempt) (payload : Payload)
    (mr : Nat) : ∀ l : List Nat, Ev.limiterWait ∉ (qoLoop oracle payload mr l).1 := by
  intro l
  induction l with
  | nil => simp [qoLoop]
  | cons a rest ih =>
    cases h : oracle payload a with
    | raised =>
      simp only [qoLoop, h]
      split_ifs <;> simp_all [List.mem_cons]
    | resp r =>
      simp only [qoLoop, h]
      split_ifs <;> simp_all [List.mem_cons]

/-- C2 counterexample: a concrete run of the gateway (one successful
404-terminated call) whose very first event is the outbound HTTP request
and whose trace contains no pass through the pacing limiter at all — the
claimed blocking on the shared limiter before every outbound call does
not happen (the source imports `wait_for_rate_limit` but never calls it;
its comment reads `Send request immediately - no wait`). -/
theorem C2_no_limiter_counterexample :
    (query_openrouter "k".data (fun _ _ => Attempt.resp ⟨404, PyVal.null, none⟩)
        [] 3).1.head? = some Ev.httpCall ∧
    Ev.limiterWait ∉
      (query_openrouter "k".data (fun _ _ => Attempt.resp ⟨404, PyVal.null, none⟩)
        [] 3).1 := by
  refine ⟨by decide, by decide⟩

/-- C2 (amended): `query_openrouter` never blocks on the pacing limiter:
for every credential, network oracle, message list and retry budget, the
run's event trace contains no limiter wait whatsoever — outbound
requests are sent immediately, so no minimum inter-call interval is
enforced by the gateway. -/
theorem C2_gateway_never_paces (apiKey : List Char)
    (oracle : Payload → Nat → Attempt) (messages : List Message) (mr : Nat) :
    Ev.limiterWait ∉ (query_openrouter apiKey oracle messages mr).1 :=
  qoLoop_no_limiter oracle _ mr (List.range mr)

/-! ## Claim C7 -/

lemma mem_insertStable {α : Type} (le : α → α → Bool) (a x : α) :
    ∀ l, x ∈ insertStable le a l ↔ x = a ∨ x ∈ l := by
  intro l
  induction l with
  | nil => simp [insertStable]
  | cons b t ih =>
    simp only [insertStable]
    split_ifs with h <;> simp only [List.mem_cons, ih] <;> tauto

lemma mem_pySort {α : Type} (le : α → α → Bool) (x : α) (l : List α) :
    x ∈ pySort le l ↔ x ∈ l := by
  unfold pySort
  suffices h : ∀ (l : List α) (acc : List α),
      x ∈ List.foldl (fun acc y => insertStable le y acc) acc l ↔
        x ∈ acc ∨ x ∈ l by
    simpa using h l []
  intro l
  induction l with
  | nil => intro acc; simp
  | cons b t ih =>
    intro acc
    simp only [List.foldl_cons, ih, mem_insertStable, List.mem_cons]
    tauto

/-- C7 counterexample: a store whose only chunk has empty text, queried
with `"zzz"`: every candidate scores zero, and the all-zero-score
fallback (`result = all_chunks[:top_k]`) returns the empty-text chunk —
the retriever DOES return a chunk whose text is empty. -/
theorem C7_empty_text_counterexample :
    (load_relevant_chunks fsStoreEmptyText "zzz".data 3).all
      (fun c => !c.textD.isEmpty) = false := by
  decide

/-- C7 (amended): the no-empty-text invariant holds on the scored path —
whenever the question names no bulletin and at least one candidate
scores positively, every returned chunk has non-empty text (a positive
score requires some non-empty query term to occur inside the chunk
text).  It fails on the all-zero-score fallback path and on the
full-document path, per the counterexample. -/
theorem C7_scored_path_nonempty (st : ChunkStore) (query : List Char)
    (top_k : Nat) (hb : detect_bulletin_query query = none)
    (hs : scoredCandidates (pySplit (strLower query))
        (retrievalCandidates st query top_k none) ≠ []) :
    (load_relevant_chunks st query top_k).all (fun c => !c.textD.isEmpty) = true := by
  simp only [load_relevant_chunks, hb]
  by_cases hA : retrievalCandidates st query top_k none = []
  · simp [hA]
  · rw [if_neg hA, if_pos hs]
    rw [List.all_eq_true]
    intro c hc
    rw [List.mem_map] at hc
    obtain ⟨p, hp, rfl⟩ := hc
    have hp2 : p ∈ pySort (fun x y => decide (y.1 ≤ x.1))
        (scoredCandidates (pySplit (strLower query))
          (retrievalCandidates st query top_k none)) :=
      List.mem_of_mem_take hp
    rw [mem_pySort] at hp2
    unfold scoredCandidates at hp2
    rw [List.mem_filterMap] at hp2
    obtain ⟨chunk, _, heq⟩ := hp2
    by_cases hpos : chunkScore (pySplit (strLower query)) (strLower chunk.textD) > 0
    · rw [if_pos hpos] at heq
      obtain rfl : (chunkScore (pySplit (strLower query)) (strLower chunk.textD),
          chunk) = p := Option.some.inj heq
      unfold chunkScore at hpos
      obtain ⟨term, hterm, hsub⟩ := List.countP_pos.mp hpos
      have h1 : term ≠ [] := mem_pySplit_ne_nil hterm
      have h2 : strLower chunk.textD ≠ [] := substr_ne_nil hsub h1
      have h3 : chunk.textD ≠ [] := strLower_ne_nil h2
      simp [List.isEmpty_iff, h3]
    · rw [if_neg hpos] at heq
      exact absurd heq (by simp)

/-- Witness for `C7_scored_path_nonempty`: a store with one chunk of
text `cat`, queried with `"cat"`, satisfies both hypotheses and the
conclusion. -/
theorem C7_scored_path_nonempty_witness :
    (detect_bulletin_query "cat".data = none ∧
      scoredCandidates (pySplit (strLower "cat".data))
        (retrievalCandidates fsStoreCat "cat".data 3 none) ≠ []) ∧
    (load_relevant_chunks fsStoreCat "cat".data 3).all
      (fun c => !c.textD.isEmpty) = true :=
  ⟨⟨by decide, by decide⟩,
    C7_scored_path_nonempty fsStoreCat "cat".data 3 (by decide) (by decide)⟩

/-! ## Claim C8 -/

lemma qoLoop_429 (payload : Payload) (mr : Nat) (body : PyVal)
    (ra : Option (List Char)) (hra : 0 ≤ retryWaitTime ra) :
    ∀ l : List Nat, (∀ a ∈ l, a < mr - 1) →
      qoLoop (fun _ _ => Attempt.resp ⟨429, body, ra⟩) payload mr (l ++ [mr - 1]) =
        ((List.replicate l.length [Ev.httpCall, Ev.sleep (retryWaitTime ra)]).flatten
          ++ [Ev.httpCall], .ok none) := by
  intro l
  induction l with
  | nil =>
    intro _
    simp [qoLoop]
  | cons a rest ih =>
    intro h
    have ha : a < mr - 1 := h a (by simp)
    have hrest : ∀ x ∈ rest, x < mr - 1 := fun x hx => h x (by simp [hx])
    simp only [List.cons_append, qoLoop, if_pos ha, if_neg (not_lt.mpr hra)]
    simp [ih hrest, List.replicate_succ]

/-- C8 counterexample: a run whose every attempt yields HTTP 429 with a
`retry-after` header of `"-5"` does NOT perform `max_retries` attempts
and return failure: `int("-5")` succeeds, `time.sleep(-5)` raises
`ValueError`, and — only `RequestException` being caught — the run
aborts after exactly one outbound call with an uncaught exception
instead of a failure return. -/
theorem C8_negative_retry_after_counterexample :
    query_openrouter "k".data
        (fun _ _ => Attempt.resp ⟨429, PyVal.null, some "-5".data⟩) [] 3 =
      ([Ev.httpCall], .error PyErr.valueError) := by
  rfl

/-- C8 (amended): retry accounting of the gateway, for schedules whose
computed wait is non-negative (`retry-after` absent, unparseable, or
parsing to a non-negative integer).  (i) When every attempt yields HTTP
429, the run makes exactly `max_retries` outbound calls and returns
failure (`None`), sleeping between consecutive attempts exactly the
schedule value — the integer-parsed `retry-after` header when present,
otherwise 2 seconds.  (ii)/(iii) When the first attempt yields HTTP 404
or HTTP 401, the run makes exactly one outbound call, with no sleep and
no retry, and returns failure.  A negative parsed `retry-after` instead
aborts with an uncaught `ValueError`, per the counterexample. -/
theorem C8_retry_schedule (apiKey : List Char) (messages : List Message)
    (mr : Nat) (hmr : 1 ≤ mr) (body : PyVal) (ra : Option (List Char))
    (hra : 0 ≤ retryWaitTime ra)
    (oracle404 oracle401 : Payload → Nat → Attempt)
    (h404 : ∀ p, oracle404 p 0 = Attempt.resp ⟨404, body, ra⟩)
    (h401 : ∀ p, oracle401 p 0 = Attempt.resp ⟨401, body, ra⟩) :
    query_openrouter apiKey (fun _ _ => Attempt.resp ⟨429, body, ra⟩) messages mr =
      ((List.replicate (mr - 1) [Ev.httpCall, Ev.sleep (retryWaitTime ra)]).flatten
        ++ [Ev.httpCall], .ok none) ∧
    query_openrouter apiKey oracle404 messages mr = ([Ev.httpCall], .ok none) ∧
    query_openrouter apiKey oracle401 messages mr = ([Ev.httpCall], .ok none) := by
  obtain ⟨k, rfl⟩ : ∃ k, mr = k + 1 := ⟨mr - 1, by omega⟩
  refine ⟨?_, ?_, ?_⟩
  · unfold query_openrouter
    rw [List.range_succ]
    have := qoLoop_429
      { model := OPENROUTER_MODEL, messages := messages,
        temperature := 7 / 10, maxTokens := 4000 } (k + 1) body ra hra
      (List.range k) (fun a ha => by simpa using List.mem_range.mp ha)
    simpa [List.length_range] using this
  · unfold query_openrouter
    rw [List.range_succ_eq_map]
    simp [qoLoop, h404]
  · unfold query_openrouter
    rw [List.range_succ_eq_map]
    simp [qoLoop, h401]

/-- Witness for `C8_retry_schedule` at `max_retries = 2` with a
`retry-after` header of `"7"`. -/
theorem C8_retry_schedule_witness :
    (1 ≤ 2 ∧ 0 ≤ retryWaitTime (some "7".data)) ∧
    (query_openrouter "k".data
        (fun _ _ => Attempt.resp ⟨429, PyVal.null, some "7".data⟩) [] 2 =
      ((List.replicate (2 - 1)
          [Ev.httpCall, Ev.sleep (retryWaitTime (some "7".data))]).flatten
        ++ [Ev.httpCall], .ok none) ∧
    query_openrouter "k".data
        (fun _ _ => Attempt.resp ⟨404, PyVal.null, some "7".data⟩) [] 2 =
      ([Ev.httpCall], .ok none) ∧
    query_openrouter "k".data
        (fun _ _ => Attempt.resp ⟨401, PyVal.null, some "7".data⟩) [] 2 =
      ([Ev.httpCall], .ok none)) :=
  ⟨⟨by decide, by decide⟩,
    C8_retry_schedule "k".data [] 2 (by decide) PyVal.null (some "7".data)
      (by decide)
      (fun _ _ => Attempt.resp ⟨404, PyVal.null, some "7".data⟩)
      (fun _ _ => Attempt.resp ⟨401, PyVal.null, some "7".data⟩)
      (fun _ => rfl) (fun _ => rfl)⟩

/-! ## Claim C1 -/

lemma qoLoop_wf (oracle : Payload → Nat → Attempt) (payload : Payload) (mr : Nat)
    (hwf : ∀ p n, wellFormedAttempt (oracle p n)) :
    ∀ l : List Nat, (qoLoop oracle payload mr l).2 = .ok none ∨
      ∃ s, (qoLoop oracle payload mr l).2 = .ok (some (.str s)) := by
  have hpow : ∀ n : Nat, ¬((2 : Int) ^ n < 0) := fun n =>
    not_lt.mpr (pow_nonneg (by norm_num) n)
  intro l
  induction l with
  | nil => left; rfl
  | cons a rest ih =>
    cases h : oracle payload a with
    | raised =>
      simp only [qoLoop, h, if_neg (hpow a)]
      split_ifs <;> exact ih
    | resp r =>
      simp only [qoLoop, h]
      have hr := hwf payload a
      rw [h] at hr
      by_cases h200 : r.status = 200
      · rw [if_pos h200]
        rcases hr.1 h200 with hnone | ⟨s, hs⟩
        · left; exact hnone
        · right; exact ⟨s, hs⟩
      · rw [if_neg h200]
        by_cases h429 : r.status = 429
        · rw [if_pos h429, if_neg (not_lt.mpr (hr.2 h429))]
          split_ifs <;> first | exact ih | (left; rfl)
        · rw [if_neg h429]
          rw [if_neg (hpow a)]
          split_ifs <;> first | exact ih | (left; rfl)

lemma composeResult_ok (run : List Ev × Except PyErr (Option PyVal))
    (h : run.2 = .ok none ∨ ∃ s, run.2 = .ok (some (.str s))) :
    (composeResult run).2.isOk = true := by
  rcases h with h | ⟨s, h⟩
  · simp only [composeResult, h]
    rfl
  · simp only [composeResult, h]
    split_ifs <;> rfl

/-- C1 (amended): `ask_with_rag` returns a string without raising when
the credential is unset — the fixed configuration-error string, with an
empty event trace, hence no outbound network call — and, for a non-empty
credential, whenever every HTTP-200 response body parses cleanly
(well-formed in the §4.3 sense) and no 429 response carries a
`retry-after` header parsing to a negative integer.  Outside those
conditions the guarantee fails: a 200 body whose first `choices` entry
lacks `message` (or `content`) raises a lookup error (per the
counterexample), and a 429 whose `retry-after` parses to a negative
integer makes `time.sleep` raise `ValueError`; both propagate to the
caller. -/
theorem C1_answer_total_amended :
    (∀ (st : ChunkStore) (oracle : Payload → Nat → Attempt) (question : List Char),
        ask_with_rag [] st oracle question = ([], .ok configErrorMsg)) ∧
    (∀ (apiKey : List Char) (st : ChunkStore) (oracle : Payload → Nat → Attempt)
        (question : List Char), apiKey ≠ [] →
        (∀ p n, wellFormedAttempt (oracle p n)) →
        (ask_with_rag apiKey st oracle question).2.isOk = true) := by
  constructor
  · intro st oracle q
    rfl
  · intro apiKey st oracle q hk hwf
    unfold ask_with_rag
    rw [if_neg hk]
    exact composeResult_ok _ (qoLoop_wf oracle _ 3 hwf (List.range 3))

/-- Witness for `C1_answer_total_amended` with a set credential and an
all-404 oracle (vacuously well-formed 200 bodies and no 429 wait). -/
theorem C1_answer_total_witness :
    "k".data ≠ [] ∧
    (ask_with_rag "k".data fsStoreCat
        (fun _ _ => Attempt.resp ⟨404, PyVal.null, none⟩) "q".data).2.isOk = true :=
  ⟨by decide,
    C1_answer_total_amended.2 "k".data fsStoreCat
      (fun _ _ => Attempt.resp ⟨404, PyVal.null, none⟩) "q".data (by decide)
      (fun _ _ => ⟨fun h => absurd h (by decide), fun h => absurd h (by decide)⟩)⟩

/-- C1 counterexample: with the credential set and the gateway receiving
HTTP 200 with body `{"choices": [{}]}` — a `choices` entry lacking
`message` — `ask_with_rag` does not return a string: the subscription
`data['choices'][0]['message']` raises `KeyError('message')`, which is
not caught (only `RequestException` is) and propagates to the caller. -/
theorem C1_raises_keyerror_counterexample :
    (ask_with_rag "k".data fsStoreCat
        (fun _ _ => Attempt.resp
          ⟨200, PyVal.obj [("choices".data, PyVal.arr [PyVal.obj []])], none⟩)
        "q".data).2 = .error (PyErr.keyError "message".data) := by
  rfl

/-! ## Claim C9 -/

lemma dropWhile_eq_self_of_none {α : Type} (p : α → Bool) (l : List α)
    (h : ∀ c ∈ l, p c = false) : l.dropWhile p = l := by
  cases l with
  | nil => rfl
  | cons a t => simp [List.dropWhile_cons, h a (List.mem_cons_self a t)]

lemma pyStrip_eq_self {l : List Char} (h : ∀ c ∈ l, isPySpace c = false) :
    pyStrip l = l := by
  unfold pyStrip
  rw [dropWhile_eq_self_of_none _ _ h,
    dropWhile_eq_self_of_none _ _ (fun c hc => h c (List.mem_reverse.mp hc)),
    List.reverse_reverse]

lemma pyRfind_eq_neg_one (text punct : List Char) (a b : Int)
    (hws : ∀ c ∈ text, isPySpace c = false)
    (hp : ∃ c ∈ punct, isPySpace c = true) : pyRfind text punct a b = -1 := by
  have hnone : ∀ lo hi : Nat, (List.range (hi + 1)).reverse.find?
      (fun j => decide (lo ≤ j) && decide (j + punct.length ≤ hi) &&
        decide ((text.drop j).take punct.length = punct)) = none := by
    intro lo hi
    rw [List.find?_eq_none]
    intro j _ habs
    have h3 := (Bool.and_eq_true _ _).mp habs
    have heq : (text.drop j).take punct.length = punct := of_decide_eq_true h3.2
    obtain ⟨c, hc, hcs⟩ := hp
    rw [← heq] at hc
    have : c ∈ text := List.mem_of_mem_drop (List.mem_of_mem_take hc)
    rw [hws c this] at hcs
    exact Bool.false_ne_true hcs
  simp only [pyRfind]
  rw [hnone]

lemma ctFindEnd_eq_of_no_ws (text : List Char)
    (hws : ∀ c ∈ text, isPySpace c = false) (s e : Int) :
    ctFindEnd text s e = e := by
  have hall : ∀ p ∈ sentencePuncts, ∃ c ∈ p, isPySpace c = true := by decide
  unfold ctFindEnd
  have hnone : sentencePuncts.findSome? (fun punct =>
      let lastPunct := pyRfind text punct s e
      if lastPunct ≠ -1 then some (lastPunct + (punct.length : Int)) else none)
        = none := by
    rw [List.findSome?_eq_none_iff]
    intro p hp
    simp [pyRfind_eq_neg_one text p s e hws (hall p hp)]
  rw [hnone]

/-- The output of the `chunk_text` window loop on whitespace-free text,
as a structurally recursive function of the window start: the window
`text[s : s+chunk_size]`, then (unless the next start reaches the end)
the chunks from `s + chunk_size − overlap`. -/
def chunksFrom (text : List Char) (chunk_size overlap : Nat) :
    Nat → Nat → List (List Char)
  | 0, _ => []
  | fuel + 1, s =>
    if s < text.length then
      ((text.drop s).take chunk_size) ::
        (if text.length ≤ s + chunk_size - overlap then []
         else chunksFrom text chunk_size overlap fuel (s + chunk_size - overlap))
    else []

lemma pySlice_natCast (text : List Char) (s n : Nat) (hs : s < text.length) :
    pySlice text (s : Int) ((s : Int) + (n : Int)) = (text.drop s).take n := by
  simp only [pySlice, normIdx]
  rw [if_neg (by omega), if_neg (by omega)]
  have h1 : (s : Int).toNat = s := by omega
  have h2 : ((s : Int) + (n : Int)).toNat = s + n := by omega
  rw [h1, h2]
  have h3 : min s text.length = s := by omega
  rw [h3]
  rw [List.take_eq_take]
  rw [List.length_drop]
  omega

lemma ctLoop_eq_chunksFrom (text : List Char) (cs ov : Nat) (hov : ov < cs)
    (hws : ∀ c ∈ text, isPySpace c = false) :
    ∀ (fuel s : Nat) (acc : List (List Char)), s < text.length →
      text.length ≤ s + fuel * (cs - ov) →
      ctLoop text cs ov fuel (s : Int) acc =
        some (acc ++ chunksFrom text cs ov fuel s) := by
  intro fuel
  induction fuel with
  | zero =>
    intro s acc hs hf
    simp only [Nat.zero_mul, Nat.add_zero] at hf
    omega
  | succ f ih =>
    intro s acc hs hf
    have hsInt : (s : Int) < (text.length : Int) := by omega
    have hchunk : pyStrip (pySlice text (s : Int) ((s : Int) + (cs : Int)))
        = (text.drop s).take cs := by
      rw [pySlice_natCast text s cs hs]
      refine pyStrip_eq_self (fun c hc => ?_)
      exact hws c (List.mem_of_mem_drop (List.mem_of_mem_take hc))
    have hne : (text.drop s).take cs ≠ [] := by
      have hd : text.drop s ≠ [] := by
        intro h0
        have := congrArg List.length h0
        rw [List.length_drop] at this
        simp at this
        omega
      obtain ⟨x, t, hxt⟩ : ∃ x t, text.drop s = x :: t := by
        cases h : text.drop s with
        | nil => exact absurd h hd
        | cons x t => exact ⟨x, t, rfl⟩
      obtain ⟨m, rfl⟩ : ∃ m, cs = m + 1 := ⟨cs - 1, by omega⟩
      simp [hxt]
    simp only [ctLoop, if_pos hsInt]
    rw [ctFindEnd_eq_of_no_ws text hws]
    rw [ite_self]
    rw [hchunk]
    rw [if_pos hne]
    by_cases hterm : text.length ≤ s + cs - ov
    · rw [if_pos (show (s : Int) + (cs : Int) - (ov : Int) ≥ (text.length : Int)
        by omega)]
      simp only [chunksFrom, if_pos hs, if_pos hterm]
    · rw [if_neg (show ¬((s : Int) + (cs : Int) - (ov : Int) ≥ (text.length : Int))
        by omega)]
      have hcast : (s : Int) + (cs : Int) - (ov : Int) = ((s + cs - ov : Nat) : Int) := by
        omega
      rw [hcast]
      rw [ih (s + cs - ov) (acc ++ [(text.drop s).take cs]) (by omega)
        (by rw [Nat.succ_mul] at hf; omega)]
      simp only [chunksFrom, if_pos hs, if_neg hterm, List.append_assoc,
        List.singleton_append]

lemma chunksFrom_flatten (text : List Char) (cs ov : Nat) (hov : ov < cs) :
    ∀ (fuel s : Nat), s < text.length →
      text.length ≤ s + fuel * (cs - ov) →
      ((chunksFrom text cs ov fuel s).map (List.drop ov)).flatten =
        text.drop (s + ov) := by
  intro fuel
  induction fuel with
  | zero =>
    intro s hs hf
    simp only [Nat.zero_mul, Nat.add_zero] at hf
    omega
  | succ f ih =>
    intro s hs hf
    have hpiece : List.drop ov ((text.drop s).take cs)
        = (text.drop (s + ov)).take (cs - ov) := by
      rw [List.drop_take, List.drop_drop]
    by_cases hterm : text.length ≤ s + cs - ov
    · simp only [chunksFrom, if_pos hs, if_pos hterm, List.map_cons, List.map_nil,
        List.flatten_cons, List.flatten_nil, List.append_nil]
      rw [hpiece]
      refine List.take_of_length_le ?_
      rw [List.length_drop]
      omega
    · simp only [chunksFrom, if_pos hs, if_neg hterm, List.map_cons,
        List.flatten_cons]
      rw [ih (s + cs - ov) (by omega) (by rw [Nat.succ_mul] at hf; omega)]
      rw [hpiece]
      have h1 : s + cs - ov + ov = s + cs := by omega
      rw [h1]
      have h2 : text.drop (s + cs) = List.drop (cs - ov) (text.drop (s + ov)) := by
        rw [List.drop_drop]
        congr 1
        omega
      rw [h2]
      exact List.take_append_drop _ _

/-- C9 counterexample: `chunk_text("a. bcd", 4, 1)` emits
`["a.", "bcd", "d"]` (the first window is cut at the sentence boundary
and stripped of its trailing space, and a redundant final window is
emitted), and removing each subsequent chunk's leading overlap character
and concatenating yields `"a.cd"`, not the original `"a. bcd"` — the
claimed round-trip fails.  -/
theorem C9_roundtrip_counterexample :
    chunk_text "a. bcd".data 4 1 10 = some ["a.".data, "bcd".data, "d".data] ∧
    reconstructOverlap 1 ["a.".data, "bcd".data, "d".data] ≠ "a. bcd".data := by
  refine ⟨by decide, by decide⟩

/-- C9 (amended): on whitespace-free input (no sentence-boundary marker
can occur and stripping is the identity, so neither interferes), for
every `overlap < chunk_size` and text longer than `chunk_size`, the
segmenter terminates and concatenating the first chunk with every
subsequent chunk minus its leading `overlap` characters reconstructs the
input exactly. -/
theorem C9_roundtrip_wsfree (text : List Char) (cs ov : Nat) (hov : ov < cs)
    (hws : text.all (fun c => !isPySpace c) = true)
    (hlen : cs < text.length) :
    chunk_text text cs ov text.length ≠ none ∧
    reconstructOverlap ov ((chunk_text text cs ov text.length).getD []) = text := by
  have hws' : ∀ c ∈ text, isPySpace c = false := by
    intro c hc
    have := List.all_eq_true.mp hws c hc
    rwa [Bool.not_eq_true'] at this
  have htext : text ≠ [] := by
    intro h
    rw [h] at hlen
    simp at hlen
  have hmul : text.length ≤ 0 + text.length * (cs - ov) := by
    have h1 : text.length * 1 ≤ text.length * (cs - ov) :=
      Nat.mul_le_mul_left _ (by omega)
    omega
  have hct : chunk_text text cs ov text.length =
      some (chunksFrom text cs ov text.length 0) := by
    unfold chunk_text
    rw [if_neg htext, if_neg (by omega)]
    have h0 := ctLoop_eq_chunksFrom text cs ov hov hws' text.length 0 []
      (by omega) hmul
    simpa using h0
  rw [hct]
  refine ⟨by simp, ?_⟩
  simp only [Option.getD_some]
  obtain ⟨f, hfuel⟩ : ∃ f, text.length = f + 1 := ⟨text.length - 1, by omega⟩
  have hfl := chunksFrom_flatten text cs ov hov text.length 0 (by omega) hmul
  set rest : List (List Char) :=
    (if text.length ≤ 0 + cs - ov then []
     else chunksFrom text cs ov f (0 + cs - ov)) with hrest
  have hcons : chunksFrom text cs ov text.length 0 = (text.take cs) :: rest := by
    rw [hrest]
    conv_lhs => rw [hfuel]
    simp only [chunksFrom]
    rw [if_pos (show (0 : Nat) < text.length by omega), List.drop_zero]
  rw [hcons] at hfl ⊢
  simp only [reconstructOverlap]
  simp only [List.map_cons, List.flatten_cons, Nat.zero_add] at hfl
  rw [List.drop_take] at hfl
  have hR : (rest.map (List.drop ov)).flatten
      = List.drop (cs - ov) (text.drop ov) := by
    have hsplit := List.take_append_drop (cs - ov) (text.drop ov)
    exact List.append_cancel_left (hfl.trans hsplit.symm)
  rw [hR]
  have h2 : List.drop (cs - ov) (text.drop ov) = text.drop cs := by
    rw [List.drop_drop]
    congr 1
    omega
  rw [h2]
  exact List.take_append_drop cs text

/-- Witness for `C9_roundtrip_wsfree` on the whitespace-free text
`"abcdef"` with `chunk_size = 4`, `overlap = 1`. -/
theorem C9_roundtrip_wsfree_witness :
    (1 < 4 ∧ "abcdef".data.all (fun c => !isPySpace c) = true ∧
      4 < "abcdef".data.length) ∧
    (chunk_text "abcdef".data 4 1 "abcdef".data.length ≠ none ∧
      reconstructOverlap 1
        ((chunk_text "abcdef".data 4 1 "abcdef".data.length).getD [])
        = "abcdef".data) :=
  ⟨⟨by decide, by decide, by decide⟩,
    C9_roundtrip_wsfree "abcdef".data 4 1 (by decide) (by decide) (by decide)⟩
